import Mathlib

/-!
Shallow embedding of the GraphViz PNG generator service (src/app.py).

Text is modelled as `List Char`.  The Python substring test (`pat in s`) is
`containsSub`, and the Python `str.replace` (replace every non-overlapping
occurrence, scanning left to right) is `replaceAll`, implemented with a
fuel argument equal to the length of the scanned list so that it is
structurally recursive and evaluates by `decide`/`rfl`.

The filesystem is a predicate `fs : List Char → Bool` (os.path.exists),
the external renderer is an abstract `render : List Char → Except _ _`
(graphviz.Source(...).pipe), and the output folder is an association list
from file names to byte lists.
-/

/-- Python `pat in s` for the prefix position: core `List.isPrefixOf`. -/
def charsOfStr (s : String) : List Char := s.data

/-- Python substring test `pat in s` over `List Char`. -/
def containsSub (pat : List Char) : List Char → Bool
  | [] => pat.isEmpty
  | c :: rest => List.isPrefixOf pat (c :: rest) || containsSub pat rest

/-- Fuelled worker for `replaceAll`; the fuel bounds the number of scanned
positions, so the recursion is structural. -/
def replaceAllAux (pat rep : List Char) : Nat → List Char → List Char
  | 0, s => s
  | _ + 1, [] => []
  | n + 1, c :: rest =>
    if !pat.isEmpty && List.isPrefixOf pat (c :: rest) then
      rep ++ replaceAllAux pat rep n (List.drop (pat.length - 1) rest)
    else
      c :: replaceAllAux pat rep n rest

/-- Python `s.replace(pat, rep)` for a non-empty `pat`: replace every
non-overlapping occurrence, scanning left to right. -/
def replaceAll (pat rep s : List Char) : List Char :=
  replaceAllAux pat rep s.length s

/-- Literal file-name substring that selects the first substitution
variant in `generate_png_from_dot_file`. -/
def harmonicSentinel : List Char := charsOfStr "harmonic_distortion_test_setup.dot"

/-- Literal file-name substring that selects the second substitution
variant in `generate_png_from_dot_file`. -/
def voltageSentinel : List Char := charsOfStr "voltage_accuracy_test_setup.dot"

/-- Default signal-generator image reference (`signal_generator.png`). -/
def sgDefault : List Char := charsOfStr "signal_generator.png"

/-- Default spectrum-analyzer image reference (`spectrum_analyzer.png`). -/
def saDefault : List Char := charsOfStr "spectrum_analyzer.png"

/-- The literal token `image="signal_generator.png"`. -/
def sgImageTok : List Char := charsOfStr "image=\"signal_generator.png\""

/-- The literal token `image="spectrum_analyzer.png"`. -/
def saImageTok : List Char := charsOfStr "image=\"spectrum_analyzer.png\""

/-- The literal token `label="Signal Generator"`. -/
def sgLabelTok : List Char := charsOfStr "label=\"Signal Generator\""

/-- The literal token `label="Spectrum Analyzer"`. -/
def saLabelTok : List Char := charsOfStr "label=\"Spectrum Analyzer\""

/-- The label text prepended to a derived label. -/
def ktBrand : List Char := charsOfStr "Keysight Technologies "

/-- The literal `.png` removed from a reference when deriving a label. -/
def pngExt : List Char := charsOfStr ".png"

/-- Python f-string `image="{ref}"`. -/
def imageAttr (ref : List Char) : List Char :=
  charsOfStr "image=\"" ++ ref ++ charsOfStr "\""

/-- Python f-string `label="{l}"`. -/
def labelAttr (l : List Char) : List Char :=
  charsOfStr "label=\"" ++ l ++ charsOfStr "\""

/-- Message of the exception raised by the voltage variant when the
requested signal-generator image does not exist. -/
def assetMsg : List Char := charsOfStr "Signal generator image not found: "

/-- Prefix of the wrapping exception raised by `generate_png_from_dot_file`. -/
def failMsg : List Char := charsOfStr "Failed to generate PNG: "

/-- The string-substitution part of `generate_png_from_dot_file`
(src/app.py lines 264-286), applied to the text read from the dot file.
`fs` models `os.path.exists`.  Returns `Except.error` for the exception
raised in the voltage variant, otherwise the text that will be submitted
to the renderer. -/
def substituteDotContent (fs : List Char → Bool)
    (dotFilepath dotContent sgImg saImg : List Char) :
    Except (List Char) (List Char) :=
  if containsSub harmonicSentinel dotFilepath then
    let c1 :=
      if containsSub sgImageTok dotContent && (sgImg != sgDefault) then
        let sg := if fs sgImg then sgImg else sgDefault
        let ca := replaceAll sgImageTok (imageAttr sg) dotContent
        replaceAll sgLabelTok (labelAttr (ktBrand ++ replaceAll pngExt [] sg)) ca
      else dotContent
    let c2 :=
      if containsSub saImageTok c1 && (saImg != saDefault) then
        let sa := if fs saImg then saImg else saDefault
        let cb := replaceAll saImageTok (imageAttr sa) c1
        replaceAll saLabelTok (labelAttr (ktBrand ++ replaceAll pngExt [] sa)) cb
      else c1
    Except.ok c2
  else if containsSub voltageSentinel dotFilepath then
    if containsSub sgImageTok dotContent && (sgImg != sgDefault) then
      if fs sgImg then
        Except.ok (replaceAll sgImageTok (imageAttr sgImg) dotContent)
      else
        Except.error (assetMsg ++ sgImg)
    else
      Except.ok dotContent
  else
    Except.ok dotContent

/-- `generate_png_from_dot_file` (src/app.py lines 257-298): substitute,
render, and wrap any raised exception in `Failed to generate PNG: ...`.
The file content is passed as `dotContent` (the read at line 261-262). -/
def generate_png_from_dot_file (fs : List Char → Bool)
    (render : List Char → Except (List Char) (List Nat))
    (dotFilepath dotContent sgImg saImg : List Char) :
    Except (List Char) (List Nat) :=
  match substituteDotContent fs dotFilepath dotContent sgImg saImg with
  | Except.error e => Except.error (failMsg ++ e)
  | Except.ok c =>
      match render c with
      | Except.error e => Except.error (failMsg ++ e)
      | Except.ok png => Except.ok png

/-- All characters mapped to lower case, modelling Python `.lower()` on the
ASCII file extensions involved. -/
def lowerAll (l : List Char) : List Char := l.map Char.toLower

/-- The characters after the last `'.'` of `l` (all of `l` when there is
no dot), modelling `filename.rsplit('.', 1)[1]` under the guard
`'.' in filename`. -/
def extAfterLastDot (l : List Char) : List Char :=
  (l.reverse.takeWhile (fun c => c != '.')).reverse

/-- The set `ALLOWED_EXTENSIONS`, holding `dot` and `gv` (src/app.py line 27). -/
def ALLOWED_EXTENSIONS : List (List Char) := [charsOfStr "dot", charsOfStr "gv"]

/-- `allowed_file` (src/app.py lines 68-71). -/
def allowed_file (filename : List Char) : Bool :=
  filename.contains '.' &&
    ALLOWED_EXTENSIONS.contains (lowerAll (extAfterLastDot filename))

/-- Predicate written from the claim: the filename contains a dot and its
final extension (the part after the last dot, which itself contains no
dot), lowercased, is `dot` or `gv`. -/
def specAllowed (filename : List Char) : Prop :=
  ∃ a e, filename = a ++ '.' :: e ∧ e.contains '.' = false ∧
    (lowerAll e = charsOfStr "dot" ∨ lowerAll e = charsOfStr "gv")

/-- The final path component: the characters after the last `'/'`. -/
def lastComponent (l : List Char) : List Char :=
  (l.reverse.takeWhile (fun c => c != '/')).reverse

/-- `pathlib.Path(...).stem`: the final component without its suffix; the
suffix exists only when the last dot is neither the first character of the
component nor its last. -/
def stem (l : List Char) : List Char :=
  let n := lastComponent l
  if n.contains '.' then
    let after := n.reverse.takeWhile (fun c => c != '.')
    let before := ((n.reverse.dropWhile (fun c => c != '.')).drop 1).reverse
    if before == [] || after == [] then n else before
  else n

/-- One character of a `str(uuid.uuid4())` value: a lower-case hex digit
or a dash. -/
def isUuidChar (c : Char) : Bool :=
  (charsOfStr "0123456789abcdef-").contains c

/-- Outcome of one request to the `/generate` endpoint: the HTTP status,
the JSON body fields, whether `generate_png_from_dot_file` was invoked,
which file (if any) was written to the output folder, where the upload was
staged, and whether the staged file is still present afterwards. -/
structure UploadOutcome where
  status : Nat
  errorMsg : Option (List Char)
  outputFile : Option (List Char)
  written : Option (List Char × List Nat)
  stagedAt : Option (List Char)
  stagedRemains : Bool
  pipelineInvoked : Bool

/-- Outcome of one request to the `/generate_from_existing` endpoint. -/
structure ExistingOutcome where
  status : Nat
  errorMsg : Option (List Char)
  outputFile : Option (List Char)
  written : Option (List Char × List Nat)
  pipelineInvoked : Bool

/-- Error body of the 400 response for a disallowed extension. -/
def invalidTypeMsg : List Char :=
  charsOfStr "Invalid file type. Only .dot and .gv files allowed"

/-- `generate_png_from_upload`, the `/generate` endpoint (src/app.py lines
140-185).  `hasFile` models the file-field check on request.files, `filename` and
`fileContent` the upload, `sgParam` the optional form field
`signal_generator_image`, and `u` the fresh `str(uuid.uuid4())`.  The
staged file is saved at `uploads/<u>.dot`; it is removed only on the
success path (line 169 runs after the render), so on a render failure it
remains behind. -/
def generate_png_from_upload (fs : List Char → Bool)
    (render : List Char → Except (List Char) (List Nat))
    (hasFile : Bool) (filename fileContent : List Char)
    (sgParam : Option (List Char)) (u : List Char) : UploadOutcome :=
  if !hasFile then
    { status := 400, errorMsg := some (charsOfStr "No file provided"),
      outputFile := none, written := none, stagedAt := none,
      stagedRemains := false, pipelineInvoked := false }
  else if filename == [] then
    { status := 400, errorMsg := some (charsOfStr "No file selected"),
      outputFile := none, written := none, stagedAt := none,
      stagedRemains := false, pipelineInvoked := false }
  else if !allowed_file filename then
    { status := 400, errorMsg := some invalidTypeMsg,
      outputFile := none, written := none, stagedAt := none,
      stagedRemains := false, pipelineInvoked := false }
  else
    let stagedPath := charsOfStr "uploads/" ++ u ++ charsOfStr ".dot"
    let sg := sgParam.getD sgDefault
    match generate_png_from_dot_file fs render stagedPath fileContent sg saDefault with
    | Except.error e =>
        { status := 500, errorMsg := some e,
          outputFile := none, written := none, stagedAt := some stagedPath,
          stagedRemains := true, pipelineInvoked := true }
    | Except.ok png =>
        { status := 200, errorMsg := none,
          outputFile := some (u ++ charsOfStr ".png"),
          written := some (u ++ charsOfStr ".png", png),
          stagedAt := some stagedPath,
          stagedRemains := false, pipelineInvoked := true }

/-- `generate_png_from_existing`, the `/generate_from_existing` endpoint
(src/app.py lines 187-227).  `jsonFilename` models the `filename` field of
the request body, `readFile` the file read inside the pipeline, and `u`
the fresh `str(uuid.uuid4())` used in the output name. -/
def generate_png_from_existing (fs : List Char → Bool)
    (readFile : List Char → List Char)
    (render : List Char → Except (List Char) (List Nat))
    (jsonFilename : Option (List Char))
    (sgParam saParam : Option (List Char)) (u : List Char) : ExistingOutcome :=
  match jsonFilename with
  | none =>
      { status := 400,
        errorMsg := some (charsOfStr "No filename provided. Send JSON with filename field"),
        outputFile := none, written := none, pipelineInvoked := false }
  | some filename =>
      let sg := sgParam.getD sgDefault
      let sa := saParam.getD saDefault
      if !fs filename then
        { status := 404, errorMsg := some (charsOfStr "File not found: " ++ filename),
          outputFile := none, written := none, pipelineInvoked := false }
      else if !allowed_file filename then
        { status := 400, errorMsg := some invalidTypeMsg,
          outputFile := none, written := none, pipelineInvoked := false }
      else
        match generate_png_from_dot_file fs render filename (readFile filename) sg sa with
        | Except.error e =>
            { status := 500, errorMsg := some e,
              outputFile := none, written := none, pipelineInvoked := true }
        | Except.ok png =>
            let name := stem filename ++ charsOfStr "_" ++ u ++ charsOfStr ".png"
            { status := 200, errorMsg := none,
              outputFile := some name, written := some (name, png),
              pipelineInvoked := true }

/-- The output folder, as a map from file names to the bytes written. -/
def lookupStore : List (List Char × List Nat) → List Char → Option (List Nat)
  | [], _ => none
  | (n, b) :: rest, name => if n == name then some b else lookupStore rest name

/-- Commit the file written by an endpoint (if any) to the output folder. -/
def writeOutput (w : Option (List Char × List Nat))
    (st : List (List Char × List Nat)) : List (List Char × List Nat) :=
  match w with
  | none => st
  | some (n, b) => (n, b) :: st

/-- `download_file`, the `/download/<filename>` endpoint (src/app.py lines
229-241): 404 when the file is absent from the output folder, otherwise
the stored bytes (served as an attachment). -/
def download_file (st : List (List Char × List Nat)) (filename : List Char) :
    Except (Nat × List Char) (List Nat) :=
  match lookupStore st filename with
  | none => Except.error (404, charsOfStr "File not found")
  | some b => Except.ok b

/-- `serve_image`, the `/image/<filename>` endpoint (src/app.py lines
243-255): 404 when the file is absent from the output folder, otherwise
the stored bytes (served inline as image/png). -/
def serve_image (st : List (List Char × List Nat)) (filename : List Char) :
    Except (Nat × List Char) (List Nat) :=
  match lookupStore st filename with
  | none => Except.error (404, charsOfStr "File not found")
  | some b => Except.ok b

/-- A successful `List.isPrefixOf` exhibits the list as the pattern
followed by a tail. -/
theorem isPrefixOfAppend : ∀ (p l : List Char), List.isPrefixOf p l = true → ∃ t, l = p ++ t
  | [], l, _ => ⟨l, rfl⟩
  | _ :: _, [], h => by simp [List.isPrefixOf] at h
  | a :: as, b :: bs, h => by
    simp only [List.isPrefixOf, Bool.and_eq_true, beq_iff_eq] at h
    obtain ⟨t, ht⟩ := isPrefixOfAppend as bs h.2
    exact ⟨t, by simp [h.1, ht]⟩

/-- Every character of a pattern found by `containsSub` occurs in the
scanned list. -/
theorem containsSub_subset {pat : List Char} :
    ∀ {s : List Char}, containsSub pat s = true → ∀ c ∈ pat, c ∈ s := by
  intro s
  induction s with
  | nil =>
      intro h c hc
      simp [containsSub, List.isEmpty_iff] at h
      subst h
      simp at hc
  | cons a rest ih =>
      intro h c hc
      simp only [containsSub, Bool.or_eq_true] at h
      rcases h with h | h
      · obtain ⟨t, ht⟩ := isPrefixOfAppend pat (a :: rest) h
        rw [ht]
        exact List.mem_append_left t hc
      · exact List.mem_cons_of_mem a (ih h c hc)

/-- If some character of the pattern is absent from the scanned list, the
substring test fails. -/
theorem containsSub_eq_false {pat s : List Char} {c : Char}
    (hc : c ∈ pat) (hs : c ∉ s) : containsSub pat s = false := by
  cases h : containsSub pat s
  · rfl
  · exact absurd (containsSub_subset h c hc) hs

/-- Replacing a pattern by itself never changes the scanned list
(fuelled version). -/
theorem replaceAllAux_id (pat : List Char) :
    ∀ (n : Nat) (s : List Char), s.length ≤ n → replaceAllAux pat pat n s = s := by
  intro n
  induction n with
  | zero => intro s _; rfl
  | succ n ih =>
      intro s hs
      cases s with
      | nil => rfl
      | cons c rest =>
          by_cases h : (!pat.isEmpty && List.isPrefixOf pat (c :: rest)) = true
          · simp only [replaceAllAux, h, if_true]
            have h' : (!pat.isEmpty) = true ∧ List.isPrefixOf pat (c :: rest) = true := by
              simpa [Bool.and_eq_true] using h
            have hne : pat ≠ [] := by
              simpa [List.isEmpty_iff] using h'.1
            have hp : List.isPrefixOf pat (c :: rest) = true := h'.2
            obtain ⟨t, ht⟩ := isPrefixOfAppend pat (c :: rest) hp
            cases pat with
            | nil => exact absurd rfl hne
            | cons p0 ps =>
                have hct : c :: rest = p0 :: (ps ++ t) := by simpa using ht
                have hc0 : c = p0 := by injection hct
                have hrest : rest = ps ++ t := by injection hct
                have hdrop : List.drop ((p0 :: ps).length - 1) rest = t := by
                  rw [hrest]
                  simp [List.drop_left]
                rw [hdrop]
                have htlen : t.length ≤ n := by
                  have := List.length_cons c rest ▸ hs
                  rw [hrest] at this
                  simp at this
                  omega
                rw [ih t htlen, ht]
          · have hr : rest.length ≤ n := by
              simp [List.length_cons] at hs
              omega
            simp [replaceAllAux, h, ih rest hr]

/-- Replacing a pattern by itself never changes the scanned list. -/
theorem replaceAll_self (pat s : List Char) : replaceAll pat pat s = s :=
  replaceAllAux_id pat s.length s (Nat.le_refl _)

/-- The default image attribute text is exactly the default token. -/
theorem imageAttr_sgDefault : imageAttr sgDefault = sgImageTok := by decide

/-- When the file path contains neither sentinel file name, the
substitution pipeline returns the text unchanged. -/
theorem substNoop_of_no_sentinel (fs : List Char → Bool)
    (path content sgImg saImg : List Char)
    (hh : containsSub harmonicSentinel path = false)
    (hv : containsSub voltageSentinel path = false) :
    substituteDotContent fs path content sgImg saImg = Except.ok content := by
  simp [substituteDotContent, hh, hv]

/-- `takeWhile` stops exactly at the first element failing the predicate. -/
theorem takeWhileAppend (p : Char → Bool) :
    ∀ (t : List Char) (x : Char) (d : List Char),
      (∀ c ∈ t, p c = true) → p x = false →
      List.takeWhile p (t ++ x :: d) = t := by
  intro t
  induction t with
  | nil => intro x d _ hx; simp [List.takeWhile_cons, hx]
  | cons a t ih =>
      intro x d ht hx
      have ha : p a = true := ht a (List.mem_cons_self a t)
      simp [List.takeWhile_cons, ha,
        ih x d (fun c hc => ht c (List.mem_cons_of_mem a hc)) hx]

/-- A list containing `x` splits at the first occurrence of `x`. -/
theorem memSplitFirst (x : Char) :
    ∀ l : List Char, x ∈ l → ∃ t d, l = t ++ x :: d ∧ ∀ c ∈ t, c ≠ x := by
  intro l
  induction l with
  | nil => intro h; simp at h
  | cons a rest ih =>
      intro h
      by_cases hax : a = x
      · exact ⟨[], rest, by simp [hax], by simp⟩
      · have hx : x ∈ rest := by
          rcases List.mem_cons.mp h with h1 | h1
          · exact absurd h1.symm hax
          · exact h1
        obtain ⟨t, d, hl, ht⟩ := ih hx
        refine ⟨a :: t, d, by simp [hl], ?_⟩
        intro c hc
        rcases List.mem_cons.mp hc with h1 | h1
        · rw [h1]; exact hax
        · exact ht c h1

/-- `extAfterLastDot` recovers the suffix after the last dot. -/
theorem extAfterLastDot_eq (a e : List Char) (he : ∀ c ∈ e, c ≠ '.') :
    extAfterLastDot (a ++ '.' :: e) = e := by
  have h1 : (a ++ '.' :: e).reverse = e.reverse ++ '.' :: a.reverse := by
    simp
  unfold extAfterLastDot
  rw [h1, takeWhileAppend _ e.reverse '.' a.reverse
    (fun c hc => by
      have hne : c ≠ '.' := he c (List.mem_reverse.mp hc)
      simpa [bne_iff_ne] using hne)
    (by decide)]
  simp

/-- `allowed_file` agrees with the specification predicate: a filename is
accepted iff it has the shape `a ++ . ++ e` with a dot-free `e` whose
lowercasing is `dot` or `gv`. -/
theorem allowed_iff_spec (f : List Char) : allowed_file f = true ↔ specAllowed f := by
  constructor
  · intro h
    have h' : f.contains '.' = true ∧
        ALLOWED_EXTENSIONS.contains (lowerAll (extAfterLastDot f)) = true := by
      simpa [allowed_file, Bool.and_eq_true] using h
    obtain ⟨hdot, hext⟩ := h'
    have hmem : '.' ∈ f := by simpa using hdot
    have hmemr : '.' ∈ f.reverse := List.mem_reverse.mpr hmem
    obtain ⟨t, d, hrev, ht⟩ := memSplitFirst '.' f.reverse hmemr
    have hf : f = d.reverse ++ '.' :: t.reverse := by
      have h2 := congrArg List.reverse hrev
      simpa using h2
    have hte : ∀ c ∈ t.reverse, c ≠ '.' := fun c hc => ht c (List.mem_reverse.mp hc)
    have hext2 : extAfterLastDot f = t.reverse := by
      rw [hf]; exact extAfterLastDot_eq _ _ hte
    refine ⟨d.reverse, t.reverse, hf, ?_, ?_⟩
    · cases hx : t.reverse.contains '.'
      · rfl
      · have hmx : '.' ∈ t.reverse := by simpa using hx
        exact absurd rfl (hte '.' hmx)
    · rw [hext2] at hext
      have hm : lowerAll t.reverse ∈ ALLOWED_EXTENSIONS := by simpa using hext
      simpa [ALLOWED_EXTENSIONS] using hm
  · rintro ⟨a, e, hf, hdotfree, hor⟩
    have he : ∀ c ∈ e, c ≠ '.' := by
      intro c hc hce
      rw [hce] at hc
      have hc2 : e.contains '.' = true := by simpa using hc
      rw [hdotfree] at hc2
      cases hc2
    have hext : extAfterLastDot f = e := by rw [hf]; exact extAfterLastDot_eq a e he
    have hdot : f.contains '.' = true := by
      rw [hf]; simp
    simp only [allowed_file, Bool.and_eq_true]
    refine ⟨hdot, ?_⟩
    rw [hext]
    rcases hor with h | h <;> simp [ALLOWED_EXTENSIONS, h]

/-- No underscore occurs in a staged upload path built from a UUID. -/
theorem underscore_not_in_staged (u : List Char) (hu : u.all isUuidChar = true) :
    ('_' : Char) ∉ charsOfStr "uploads/" ++ u ++ charsOfStr ".dot" := by
  intro hmem
  rcases List.mem_append.mp hmem with h | h
  · rcases List.mem_append.mp h with h1 | h1
    · revert h1; decide
    · have h2 := (List.all_eq_true.mp hu) '_' h1
      exact absurd h2 (by decide)
  · revert h; decide

/-- Claim C2: when neither default asset-reference token appears verbatim
in the source text, the text submitted to the renderer is identical to the
input text, whatever the substitution parameters; so the parameters have
no effect on the rendered output. -/
theorem claim_C2_noop (fs : List Char → Bool) (path content sgImg saImg : List Char)
    (h1 : containsSub sgImageTok content = false)
    (h2 : containsSub saImageTok content = false) :
    substituteDotContent fs path content sgImg saImg = Except.ok content := by
  by_cases hh : containsSub harmonicSentinel path = true
  · simp [substituteDotContent, hh, h1, h2]
  · by_cases hv : containsSub voltageSentinel path = true
    · simp [substituteDotContent, hh, hv, h1]
    · simp [substituteDotContent, hh, hv]

/-- Witness for claim C2 at a concrete token-free source text. -/
theorem claim_C2_noop_w :
    containsSub sgImageTok (charsOfStr "digraph G") = false ∧
    containsSub saImageTok (charsOfStr "digraph G") = false ∧
    substituteDotContent (fun _ => true) harmonicSentinel (charsOfStr "digraph G")
      (charsOfStr "sg2.png") (charsOfStr "sa2.png") = Except.ok (charsOfStr "digraph G") :=
  ⟨by decide, by decide,
   claim_C2_noop (fun _ => true) harmonicSentinel (charsOfStr "digraph G")
     (charsOfStr "sg2.png") (charsOfStr "sa2.png") (by decide) (by decide)⟩

/-- Claim C4: a filename is accepted by `allowed_file` iff it contains a
dot and its final extension, lowercased, is `dot` or `gv`; every request
whose filename fails the check gets a client-error response (400, or 404
for a missing file in `/generate_from_existing`) and the rendering
pipeline is never invoked. -/
theorem claim_C4_extension_check :
    (∀ f : List Char, allowed_file f = true ↔ specAllowed f) ∧
    (∀ (fs : List Char → Bool) (render : List Char → Except (List Char) (List Nat))
       (hasFile : Bool) (filename fileContent : List Char)
       (sgParam : Option (List Char)) (u : List Char),
      allowed_file filename = false →
      (generate_png_from_upload fs render hasFile filename fileContent sgParam u).status = 400 ∧
      (generate_png_from_upload fs render hasFile filename fileContent sgParam u).pipelineInvoked = false) ∧
    (∀ (fs : List Char → Bool) (readFile : List Char → List Char)
       (render : List Char → Except (List Char) (List Nat))
       (f : List Char) (sgParam saParam : Option (List Char)) (u : List Char),
      allowed_file f = false →
      ((generate_png_from_existing fs readFile render (some f) sgParam saParam u).status = 400 ∨
       (generate_png_from_existing fs readFile render (some f) sgParam saParam u).status = 404) ∧
      (generate_png_from_existing fs readFile render (some f) sgParam saParam u).pipelineInvoked = false) := by
  refine ⟨allowed_iff_spec, ?_, ?_⟩
  · intro fs render hasFile filename fileContent sgParam u h
    cases hasFile
    · simp [generate_png_from_upload]
    · by_cases he : (filename == []) = true
      · simp [generate_png_from_upload, he]
      · simp [generate_png_from_upload, he, h]
  · intro fs readFile render f sgParam saParam u h
    by_cases hfs : fs f = true
    · simp [generate_png_from_existing, hfs, h]
    · simp [generate_png_from_existing, hfs]

/-- Witness for claim C4 on concrete filenames. -/
theorem claim_C4_extension_check_w :
    specAllowed (charsOfStr "g.DoT") ∧
    (generate_png_from_upload (fun _ => true) (fun _ => Except.ok [])
        true (charsOfStr "g.txt") [] none []).status = 400 ∧
    (generate_png_from_existing (fun _ => true) (fun _ => []) (fun _ => Except.ok [])
        (some (charsOfStr "g.txt")) none none []).pipelineInvoked = false :=
  ⟨(claim_C4_extension_check.1 (charsOfStr "g.DoT")).mp (by decide),
   ((claim_C4_extension_check.2.1 (fun _ => true) (fun _ => Except.ok []) true
      (charsOfStr "g.txt") [] none []) (by decide)).1,
   ((claim_C4_extension_check.2.2 (fun _ => true) (fun _ => []) (fun _ => Except.ok [])
      (charsOfStr "g.txt") none none []) (by decide)).2⟩

/-- Claim C9: substitution happens only when the file path contains one of
the two sentinel names; on any other path the text is submitted unchanged
whatever the parameters; off the harmonic path the spectrum-analyzer
parameter is ignored entirely; and the voltage variant replaces the
signal-generator image token without touching its display label. -/
theorem claim_C9_variant_gating :
    (∀ (fs : List Char → Bool) (path content sgImg saImg : List Char),
      containsSub harmonicSentinel path = false →
      containsSub voltageSentinel path = false →
      substituteDotContent fs path content sgImg saImg = Except.ok content) ∧
    (∀ (fs : List Char → Bool) (path content sgImg saImg saImg2 : List Char),
      containsSub harmonicSentinel path = false →
      substituteDotContent fs path content sgImg saImg =
        substituteDotContent fs path content sgImg saImg2) ∧
    (∀ (fs : List Char → Bool) (path content sgImg saImg : List Char),
      containsSub harmonicSentinel path = false →
      containsSub voltageSentinel path = true →
      containsSub sgImageTok content = true →
      sgImg ≠ sgDefault → fs sgImg = true →
      substituteDotContent fs path content sgImg saImg =
        Except.ok (replaceAll sgImageTok (imageAttr sgImg) content)) := by
  refine ⟨substNoop_of_no_sentinel, ?_, ?_⟩
  · intro fs path content sgImg saImg saImg2 hh
    simp [substituteDotContent, hh]
  · intro fs path content sgImg saImg hh hv htok hne hfs
    have hb : (sgImg != sgDefault) = true := bne_iff_ne.mpr hne
    simp [substituteDotContent, hh, hv, htok, hb, hfs]

/-- Witness for claim C9: the voltage variant replaces the image reference
and leaves the label token alone. -/
theorem claim_C9_variant_gating_w :
    substituteDotContent (fun _ => true) voltageSentinel
      (sgImageTok ++ charsOfStr " " ++ sgLabelTok) (charsOfStr "sg2.png") saDefault =
      Except.ok (replaceAll sgImageTok (imageAttr (charsOfStr "sg2.png"))
        (sgImageTok ++ charsOfStr " " ++ sgLabelTok)) :=
  claim_C9_variant_gating.2.2 (fun _ => true) voltageSentinel
    (sgImageTok ++ charsOfStr " " ++ sgLabelTok) (charsOfStr "sg2.png") saDefault
    (by decide) (by decide) (by decide) (by decide) rfl

/-- Claim C8: `/generate` stages the upload at `uploads/<uuid>.dot`; such a
path contains neither sentinel name, so the substitution pipeline submits
the uploaded text unchanged and the `signal_generator_image` parameter has
no effect on it. -/
theorem claim_C8_uuid_isolation :
    ∀ (fs : List Char → Bool) (render : List Char → Except (List Char) (List Nat))
      (filename fileContent : List Char) (sgParam : Option (List Char)) (u : List Char),
      u.all isUuidChar = true →
      allowed_file filename = true →
      containsSub harmonicSentinel (charsOfStr "uploads/" ++ u ++ charsOfStr ".dot") = false ∧
      containsSub voltageSentinel (charsOfStr "uploads/" ++ u ++ charsOfStr ".dot") = false ∧
      (generate_png_from_upload fs render true filename fileContent sgParam u).stagedAt =
        some (charsOfStr "uploads/" ++ u ++ charsOfStr ".dot") ∧
      (∀ sgImg saImg : List Char,
        substituteDotContent fs (charsOfStr "uploads/" ++ u ++ charsOfStr ".dot")
          fileContent sgImg saImg = Except.ok fileContent) := by
  intro fs render filename fileContent sgParam u hu hal
  have hno := underscore_not_in_staged u hu
  have hH : containsSub harmonicSentinel (charsOfStr "uploads/" ++ u ++ charsOfStr ".dot") = false :=
    containsSub_eq_false (by decide) hno
  have hV : containsSub voltageSentinel (charsOfStr "uploads/" ++ u ++ charsOfStr ".dot") = false :=
    containsSub_eq_false (by decide) hno
  have hne : (filename == []) = false := by
    cases hfn : filename == []
    · rfl
    · exfalso
      have hemp : filename = [] := by simpa using hfn
      rw [hemp] at hal
      exact absurd hal (by decide)
  refine ⟨hH, hV, ?_, fun sgImg saImg => substNoop_of_no_sentinel fs _ _ sgImg saImg hH hV⟩
  cases hres : generate_png_from_dot_file fs render
      (charsOfStr "uploads/" ++ u ++ charsOfStr ".dot") fileContent
      (sgParam.getD sgDefault) saDefault with
  | error e =>
      rw [List.append_assoc] at hres
      simp [generate_png_from_upload, hne, hal, hres]
  | ok png =>
      rw [List.append_assoc] at hres
      simp [generate_png_from_upload, hne, hal, hres]

/-- Witness for claim C8 at a concrete UUID. -/
theorem claim_C8_uuid_isolation_w :
    (charsOfStr "123e4567-e89b-12d3-a456-426614174000").all isUuidChar = true ∧
    allowed_file (charsOfStr "g.dot") = true ∧
    (generate_png_from_upload (fun _ => true) (fun _ => Except.ok [7]) true (charsOfStr "g.dot")
        (charsOfStr "digraph G") none (charsOfStr "123e4567-e89b-12d3-a456-426614174000")).stagedAt =
      some (charsOfStr "uploads/" ++ charsOfStr "123e4567-e89b-12d3-a456-426614174000" ++
        charsOfStr ".dot") :=
  ⟨by decide, by decide,
   (claim_C8_uuid_isolation (fun _ => true) (fun _ => Except.ok [7]) (charsOfStr "g.dot")
      (charsOfStr "digraph G") none (charsOfStr "123e4567-e89b-12d3-a456-426614174000")
      (by decide) (by decide)).2.2.1⟩

/-- Removing `.png` from the default signal-generator reference. -/
theorem sgDefault_label : replaceAll pngExt [] sgDefault = charsOfStr "signal_generator" := by
  decide

/-- Counterexample to claim C1 as stated: with a requested
signal-generator reference that does not exist, the voltage variant raises
an error instead of falling back, while the harmonic variant falls back on
the image reference yet still applies the display-label substitution. -/
theorem claim_C1_cx :
    substituteDotContent (fun _ => false) voltageSentinel sgImageTok
      (charsOfStr "sg2.png") saDefault =
      Except.error (assetMsg ++ charsOfStr "sg2.png") ∧
    substituteDotContent (fun _ => false) harmonicSentinel
      (sgImageTok ++ charsOfStr " " ++ sgLabelTok) (charsOfStr "sg2.png") saDefault =
      Except.ok (sgImageTok ++ charsOfStr " " ++
        labelAttr (ktBrand ++ charsOfStr "signal_generator")) :=
  ⟨rfl, rfl⟩

/-- Claim C1 (amended): the fail-vs-fallback policy for a missing
requested reference differs between the two source variants.  In the
harmonic variant the image reference falls back to the default, but the
display-label substitution is still applied with the default name; in the
voltage variant the pipeline fails with an error naming the missing
signal-generator image. -/
theorem claim_C1_policy_by_variant :
    (∀ (fs : List Char → Bool) (path content sgImg : List Char),
      containsSub harmonicSentinel path = true →
      containsSub sgImageTok content = true →
      sgImg ≠ sgDefault → fs sgImg = false →
      substituteDotContent fs path content sgImg saDefault =
        Except.ok (replaceAll sgLabelTok
          (labelAttr (ktBrand ++ charsOfStr "signal_generator")) content)) ∧
    (∀ (fs : List Char → Bool) (path content sgImg saImg : List Char),
      containsSub harmonicSentinel path = false →
      containsSub voltageSentinel path = true →
      containsSub sgImageTok content = true →
      sgImg ≠ sgDefault → fs sgImg = false →
      substituteDotContent fs path content sgImg saImg =
        Except.error (assetMsg ++ sgImg)) := by
  constructor
  · intro fs path content sgImg hh htok hne hfs
    have hb : (sgImg != sgDefault) = true := bne_iff_ne.mpr hne
    simp [substituteDotContent, hh, htok, hb, hfs, imageAttr_sgDefault,
      replaceAll_self, sgDefault_label]
  · intro fs path content sgImg saImg hh hv htok hne hfs
    have hb : (sgImg != sgDefault) = true := bne_iff_ne.mpr hne
    simp [substituteDotContent, hh, hv, htok, hb, hfs]

/-- Witness for claim C1 (amended) at a concrete missing reference. -/
theorem claim_C1_policy_by_variant_w :
    substituteDotContent (fun _ => false) harmonicSentinel
      (sgImageTok ++ charsOfStr " " ++ sgLabelTok) (charsOfStr "missing.png") saDefault =
      Except.ok (replaceAll sgLabelTok (labelAttr (ktBrand ++ charsOfStr "signal_generator"))
        (sgImageTok ++ charsOfStr " " ++ sgLabelTok)) ∧
    substituteDotContent (fun _ => false) voltageSentinel sgImageTok
      (charsOfStr "missing.png") saDefault =
      Except.error (assetMsg ++ charsOfStr "missing.png") :=
  ⟨claim_C1_policy_by_variant.1 (fun _ => false) harmonicSentinel
      (sgImageTok ++ charsOfStr " " ++ sgLabelTok) (charsOfStr "missing.png")
      (by decide) (by decide) (by decide) rfl,
   claim_C1_policy_by_variant.2 (fun _ => false) voltageSentinel sgImageTok
      (charsOfStr "missing.png") saDefault
      (by decide) (by decide) (by decide) (by decide) rfl⟩

/-- Counterexample to claim C3 as stated: first, on a path containing
neither sentinel name, the default token is present, the requested
reference differs and exists, yet no substitution is applied; second, in
the harmonic variant the derived label uses the full requested reference
with `.png` removed, not its base name. -/
theorem claim_C3_cx :
    (substituteDotContent (fun _ => true) (charsOfStr "graph.dot") sgImageTok
        (charsOfStr "sg2.png") saDefault = Except.ok sgImageTok ∧
      containsSub sgImageTok sgImageTok = true ∧
      charsOfStr "sg2.png" ≠ sgDefault) ∧
    (substituteDotContent (fun _ => true) harmonicSentinel
        (sgImageTok ++ charsOfStr " " ++ sgLabelTok) (charsOfStr "imgs/sg2.png") saDefault =
      Except.ok (imageAttr (charsOfStr "imgs/sg2.png") ++ charsOfStr " " ++
        labelAttr (ktBrand ++ charsOfStr "imgs/sg2")) ∧
      ktBrand ++ charsOfStr "imgs/sg2" ≠ ktBrand ++ charsOfStr "sg2") :=
  ⟨⟨rfl, by decide, by decide⟩, ⟨rfl, by decide⟩⟩

/-- Claim C3 (amended): in the harmonic variant, when the default
token is present, the requested reference differs from the default and
exists, every verbatim occurrence of the default image token is replaced
with the requested reference and the default display-label token is
replaced with `Keysight Technologies ` followed by the requested reference
with every occurrence of `.png` removed (the full reference as given, not
its base name). -/
theorem claim_C3_harmonic_substitution :
    (∀ (fs : List Char → Bool) (path content sgImg : List Char),
      containsSub harmonicSentinel path = true →
      containsSub sgImageTok content = true →
      sgImg ≠ sgDefault → fs sgImg = true →
      substituteDotContent fs path content sgImg saDefault =
        Except.ok (replaceAll sgLabelTok
          (labelAttr (ktBrand ++ replaceAll pngExt [] sgImg))
          (replaceAll sgImageTok (imageAttr sgImg) content))) ∧
    (∀ (fs : List Char → Bool) (path content saImg : List Char),
      containsSub harmonicSentinel path = true →
      containsSub saImageTok content = true →
      saImg ≠ saDefault → fs saImg = true →
      substituteDotContent fs path content sgDefault saImg =
        Except.ok (replaceAll saLabelTok
          (labelAttr (ktBrand ++ replaceAll pngExt [] saImg))
          (replaceAll saImageTok (imageAttr saImg) content))) := by
  constructor
  · intro fs path content sgImg hh htok hne hfs
    have hb : (sgImg != sgDefault) = true := bne_iff_ne.mpr hne
    simp [substituteDotContent, hh, htok, hb, hfs]
  · intro fs path content saImg hh htok hne hfs
    have hb : (saImg != saDefault) = true := bne_iff_ne.mpr hne
    simp [substituteDotContent, hh, htok, hb, hfs]

/-- Witness for claim C3 (amended) at a concrete existing reference. -/
theorem claim_C3_harmonic_substitution_w :
    substituteDotContent (fun _ => true) harmonicSentinel
      (sgImageTok ++ charsOfStr " " ++ sgLabelTok) (charsOfStr "sg2.png") saDefault =
      Except.ok (replaceAll sgLabelTok
        (labelAttr (ktBrand ++ replaceAll pngExt [] (charsOfStr "sg2.png")))
        (replaceAll sgImageTok (imageAttr (charsOfStr "sg2.png"))
          (sgImageTok ++ charsOfStr " " ++ sgLabelTok))) :=
  claim_C3_harmonic_substitution.1 (fun _ => true) harmonicSentinel
    (sgImageTok ++ charsOfStr " " ++ sgLabelTok) (charsOfStr "sg2.png")
    (by decide) (by decide) (by decide) rfl

/-- An accepted filename is non-empty. -/
theorem beq_nil_false_of_allowed {filename : List Char}
    (hal : allowed_file filename = true) : (filename == []) = false := by
  cases hfn : filename == []
  · rfl
  · exfalso
    have hemp : filename = [] := by simpa using hfn
    rw [hemp] at hal
    exact absurd hal (by decide)

/-- Every error of `generate_png_from_dot_file` carries the wrapping
message prefix. -/
theorem pipeline_error_shape (fs : List Char → Bool)
    (render : List Char → Except (List Char) (List Nat))
    (path content sgImg saImg e : List Char)
    (h : generate_png_from_dot_file fs render path content sgImg saImg =
      Except.error e) : ∃ e0, e = failMsg ++ e0 := by
  unfold generate_png_from_dot_file at h
  cases hs : substituteDotContent fs path content sgImg saImg with
  | error e1 =>
      rw [hs] at h
      simp at h
      exact ⟨e1, h.symm⟩
  | ok c =>
      rw [hs] at h
      cases hr : render c with
      | error e2 =>
          simp [hr] at h
          exact ⟨e2, h.symm⟩
      | ok png =>
          simp [hr] at h

/-- The missing-file message never coincides with the invalid-type
message. -/
theorem notFound_ne_invalid (rest : List Char) :
    charsOfStr "File not found: " ++ rest ≠ invalidTypeMsg := by
  intro h
  have h1 : (charsOfStr "File not found: " ++ rest).head? = invalidTypeMsg.head? :=
    congrArg List.head? h
  rw [show (charsOfStr "File not found: " ++ rest).head? = some 'F' from rfl] at h1
  rw [show invalidTypeMsg.head? = some 'I' from rfl] at h1
  exact absurd h1 (by decide)

/-- The wrapped render-failure message never coincides with the
invalid-type message. -/
theorem failWrap_ne_invalid (rest : List Char) :
    failMsg ++ rest ≠ invalidTypeMsg := by
  intro h
  have h1 : (failMsg ++ rest).head? = invalidTypeMsg.head? := congrArg List.head? h
  rw [show (failMsg ++ rest).head? = some 'F' from rfl] at h1
  rw [show invalidTypeMsg.head? = some 'I' from rfl] at h1
  exact absurd h1 (by decide)

/-- Counterexample to claim C5 as stated: on a failed render, `/generate`
returns an error and writes nothing to the output folder, but the staged
upload file is still present (the cleanup at line 169 is skipped when the
pipeline raises). -/
theorem claim_C5_cx :
    (generate_png_from_upload (fun _ => true)
        (fun _ => Except.error (charsOfStr "bad input"))
        true (charsOfStr "g.dot") (charsOfStr "digraph G") none
        (charsOfStr "id1")).stagedRemains = true ∧
    (generate_png_from_upload (fun _ => true)
        (fun _ => Except.error (charsOfStr "bad input"))
        true (charsOfStr "g.dot") (charsOfStr "digraph G") none
        (charsOfStr "id1")).status = 500 ∧
    (generate_png_from_upload (fun _ => true)
        (fun _ => Except.error (charsOfStr "bad input"))
        true (charsOfStr "g.dot") (charsOfStr "digraph G") none
        (charsOfStr "id1")).written = none :=
  ⟨rfl, rfl, rfl⟩

/-- Claim C5 (amended): when the render step fails, both endpoints return
a 500 error response and no file is written to the output folder; in
`/generate_from_existing` nothing is left behind, but in `/generate` the
staged upload file remains in the uploads folder, because it is removed
only after a successful render. -/
theorem claim_C5_failure_artifacts :
    (∀ (fs : List Char → Bool) (render : List Char → Except (List Char) (List Nat))
       (filename fileContent : List Char) (sgParam : Option (List Char)) (u e : List Char),
      allowed_file filename = true →
      generate_png_from_dot_file fs render (charsOfStr "uploads/" ++ u ++ charsOfStr ".dot")
        fileContent (sgParam.getD sgDefault) saDefault = Except.error e →
      (generate_png_from_upload fs render true filename fileContent sgParam u).status = 500 ∧
      (generate_png_from_upload fs render true filename fileContent sgParam u).written = none ∧
      (generate_png_from_upload fs render true filename fileContent sgParam u).stagedRemains = true) ∧
    (∀ (fs : List Char → Bool) (readFile : List Char → List Char)
       (render : List Char → Except (List Char) (List Nat))
       (f : List Char) (sgParam saParam : Option (List Char)) (u e : List Char),
      fs f = true → allowed_file f = true →
      generate_png_from_dot_file fs render f (readFile f)
        (sgParam.getD sgDefault) (saParam.getD saDefault) = Except.error e →
      (generate_png_from_existing fs readFile render (some f) sgParam saParam u).status = 500 ∧
      (generate_png_from_existing fs readFile render (some f) sgParam saParam u).written = none) := by
  constructor
  · intro fs render filename fileContent sgParam u e hal hres
    have hne := beq_nil_false_of_allowed hal
    rw [List.append_assoc] at hres
    simp [generate_png_from_upload, hne, hal, hres]
  · intro fs readFile render f sgParam saParam u e hfs hal hres
    simp [generate_png_from_existing, hfs, hal, hres]

/-- Witness for claim C5 (amended) on a concrete failing render. -/
theorem claim_C5_failure_artifacts_w :
    (generate_png_from_upload (fun _ => true)
        (fun _ => Except.error (charsOfStr "bad"))
        true (charsOfStr "h.gv") (charsOfStr "digraph H") none
        (charsOfStr "id2")).status = 500 ∧
    (generate_png_from_upload (fun _ => true)
        (fun _ => Except.error (charsOfStr "bad"))
        true (charsOfStr "h.gv") (charsOfStr "digraph H") none
        (charsOfStr "id2")).written = none ∧
    (generate_png_from_upload (fun _ => true)
        (fun _ => Except.error (charsOfStr "bad"))
        true (charsOfStr "h.gv") (charsOfStr "digraph H") none
        (charsOfStr "id2")).stagedRemains = true :=
  claim_C5_failure_artifacts.1 (fun _ => true)
    (fun _ => Except.error (charsOfStr "bad"))
    (charsOfStr "h.gv") (charsOfStr "digraph H") none (charsOfStr "id2")
    (failMsg ++ charsOfStr "bad") (by decide) rfl

/-- Claim C7: a renderer failure is wrapped by
`generate_png_from_dot_file` into a `Failed to generate PNG:` error that
carries the diagnostic output of the renderer; each render endpoint converts
that error into a structured 500 response carrying the message; and every
request receives a response from the fixed status set, so no fault
escapes. -/
theorem claim_C7_render_failure_handling :
    (∀ (fs : List Char → Bool) (render : List Char → Except (List Char) (List Nat))
       (path content sgImg saImg c e : List Char),
      substituteDotContent fs path content sgImg saImg = Except.ok c →
      render c = Except.error e →
      generate_png_from_dot_file fs render path content sgImg saImg =
        Except.error (failMsg ++ e)) ∧
    (∀ (fs : List Char → Bool) (render : List Char → Except (List Char) (List Nat))
       (filename fileContent : List Char) (sgParam : Option (List Char)) (u e : List Char),
      allowed_file filename = true →
      generate_png_from_dot_file fs render (charsOfStr "uploads/" ++ u ++ charsOfStr ".dot")
        fileContent (sgParam.getD sgDefault) saDefault = Except.error e →
      (generate_png_from_upload fs render true filename fileContent sgParam u).status = 500 ∧
      (generate_png_from_upload fs render true filename fileContent sgParam u).errorMsg = some e) ∧
    (∀ (fs : List Char → Bool) (readFile : List Char → List Char)
       (render : List Char → Except (List Char) (List Nat))
       (f : List Char) (sgParam saParam : Option (List Char)) (u e : List Char),
      fs f = true → allowed_file f = true →
      generate_png_from_dot_file fs render f (readFile f)
        (sgParam.getD sgDefault) (saParam.getD saDefault) = Except.error e →
      (generate_png_from_existing fs readFile render (some f) sgParam saParam u).status = 500 ∧
      (generate_png_from_existing fs readFile render (some f) sgParam saParam u).errorMsg = some e) ∧
    (∀ (fs : List Char → Bool) (render : List Char → Except (List Char) (List Nat))
       (hasFile : Bool) (filename fileContent : List Char)
       (sgParam : Option (List Char)) (u : List Char),
      (generate_png_from_upload fs render hasFile filename fileContent sgParam u).status = 200 ∨
      (generate_png_from_upload fs render hasFile filename fileContent sgParam u).status = 400 ∨
      (generate_png_from_upload fs render hasFile filename fileContent sgParam u).status = 500) ∧
    (∀ (fs : List Char → Bool) (readFile : List Char → List Char)
       (render : List Char → Except (List Char) (List Nat))
       (jsonFilename : Option (List Char)) (sgParam saParam : Option (List Char)) (u : List Char),
      (generate_png_from_existing fs readFile render jsonFilename sgParam saParam u).status = 200 ∨
      (generate_png_from_existing fs readFile render jsonFilename sgParam saParam u).status = 400 ∨
      (generate_png_from_existing fs readFile render jsonFilename sgParam saParam u).status = 404 ∨
      (generate_png_from_existing fs readFile render jsonFilename sgParam saParam u).status = 500) := by
  refine ⟨?_, ?_, ?_, ?_, ?_⟩
  · intro fs render path content sgImg saImg c e hsub hrend
    simp [generate_png_from_dot_file, hsub, hrend]
  · intro fs render filename fileContent sgParam u e hal hres
    have hne := beq_nil_false_of_allowed hal
    rw [List.append_assoc] at hres
    simp [generate_png_from_upload, hne, hal, hres]
  · intro fs readFile render f sgParam saParam u e hfs hal hres
    simp [generate_png_from_existing, hfs, hal, hres]
  · intro fs render hasFile filename fileContent sgParam u
    cases hasFile
    · simp [generate_png_from_upload]
    · by_cases he : (filename == []) = true
      · simp [generate_png_from_upload, he]
      · by_cases hal : allowed_file filename = true
        · cases hres : generate_png_from_dot_file fs render
              (charsOfStr "uploads/" ++ u ++ charsOfStr ".dot") fileContent
              (sgParam.getD sgDefault) saDefault with
          | error e =>
              rw [List.append_assoc] at hres
              simp [generate_png_from_upload, he, hal, hres]
          | ok png =>
              rw [List.append_assoc] at hres
              simp [generate_png_from_upload, he, hal, hres]
        · simp [generate_png_from_upload, he, hal]
  · intro fs readFile render jsonFilename sgParam saParam u
    cases jsonFilename with
    | none => simp [generate_png_from_existing]
    | some f =>
        by_cases hfs : fs f = true
        · by_cases hal : allowed_file f = true
          · cases hres : generate_png_from_dot_file fs render f (readFile f)
                (sgParam.getD sgDefault) (saParam.getD saDefault) with
            | error e => simp [generate_png_from_existing, hfs, hal, hres]
            | ok png => simp [generate_png_from_existing, hfs, hal, hres]
          · simp [generate_png_from_existing, hfs, hal]
        · simp [generate_png_from_existing, hfs]

/-- Witness for claim C7 on a concrete failing render. -/
theorem claim_C7_render_failure_handling_w :
    generate_png_from_dot_file (fun _ => true)
      (fun _ => Except.error (charsOfStr "bad input"))
      (charsOfStr "graph.dot") (charsOfStr "digraph G")
      sgDefault saDefault =
      Except.error (failMsg ++ charsOfStr "bad input") :=
  claim_C7_render_failure_handling.1 (fun _ => true)
    (fun _ => Except.error (charsOfStr "bad input"))
    (charsOfStr "graph.dot") (charsOfStr "digraph G") sgDefault saDefault
    (charsOfStr "digraph G") (charsOfStr "bad input") rfl rfl

/-- Claim C10: in `/generate_from_existing` the existence check precedes
the extension check: a missing file yields 404 even with an unsupported
extension, and the 400 invalid-file-type response occurs only for an
existing file with a disallowed extension. -/
theorem claim_C10_check_order :
    (∀ (fs : List Char → Bool) (readFile : List Char → List Char)
       (render : List Char → Except (List Char) (List Nat))
       (f : List Char) (sgParam saParam : Option (List Char)) (u : List Char),
      fs f = false →
      (generate_png_from_existing fs readFile render (some f) sgParam saParam u).status = 404 ∧
      (generate_png_from_existing fs readFile render (some f) sgParam saParam u).pipelineInvoked = false) ∧
    (∀ (fs : List Char → Bool) (readFile : List Char → List Char)
       (render : List Char → Except (List Char) (List Nat))
       (f : List Char) (sgParam saParam : Option (List Char)) (u : List Char),
      fs f = true → allowed_file f = false →
      (generate_png_from_existing fs readFile render (some f) sgParam saParam u).status = 400 ∧
      (generate_png_from_existing fs readFile render (some f) sgParam saParam u).errorMsg = some invalidTypeMsg) ∧
    (∀ (fs : List Char → Bool) (readFile : List Char → List Char)
       (render : List Char → Except (List Char) (List Nat))
       (f : List Char) (sgParam saParam : Option (List Char)) (u : List Char),
      (generate_png_from_existing fs readFile render (some f) sgParam saParam u).errorMsg =
        some invalidTypeMsg →
      fs f = true ∧ allowed_file f = false) := by
  refine ⟨?_, ?_, ?_⟩
  · intro fs readFile render f sgParam saParam u hfs
    simp [generate_png_from_existing, hfs]
  · intro fs readFile render f sgParam saParam u hfs hal
    simp [generate_png_from_existing, hfs, hal]
  · intro fs readFile render f sgParam saParam u hmsg
    by_cases hfs : fs f = true
    · by_cases hal : allowed_file f = true
      · exfalso
        cases hres : generate_png_from_dot_file fs render f (readFile f)
            (sgParam.getD sgDefault) (saParam.getD saDefault) with
        | error e =>
            simp [generate_png_from_existing, hfs, hal, hres] at hmsg
            obtain ⟨e0, he0⟩ := pipeline_error_shape fs render f (readFile f)
              (sgParam.getD sgDefault) (saParam.getD saDefault) e hres
            rw [he0] at hmsg
            exact failWrap_ne_invalid e0 hmsg
        | ok png =>
            simp [generate_png_from_existing, hfs, hal, hres] at hmsg
      · exact ⟨hfs, by simpa using hal⟩
    · exfalso
      simp [generate_png_from_existing, hfs] at hmsg
      exact notFound_ne_invalid f hmsg

/-- Witness for claim C10 on concrete filenames: a missing file with an
unsupported extension yields 404, an existing one yields 400. -/
theorem claim_C10_check_order_w :
    (generate_png_from_existing (fun _ => false) (fun _ => []) (fun _ => Except.ok [])
        (some (charsOfStr "missing.txt")) none none []).status = 404 ∧
    (generate_png_from_existing (fun _ => true) (fun _ => []) (fun _ => Except.ok [])
        (some (charsOfStr "present.txt")) none none []).status = 400 :=
  ⟨(claim_C10_check_order.1 (fun _ => false) (fun _ => []) (fun _ => Except.ok [])
      (charsOfStr "missing.txt") none none [] rfl).1,
   (claim_C10_check_order.2.1 (fun _ => true) (fun _ => []) (fun _ => Except.ok [])
      (charsOfStr "present.txt") none none [] rfl (by decide)).1⟩

/-- Claim C6: whenever a render endpoint reports an artifact name in its
`output_file` field, the bytes just rendered were persisted under exactly
that name, and both `/download/<id>` and `/image/<id>` immediately return
those same bytes from the output folder. -/
theorem claim_C6_roundtrip :
    (∀ (fs : List Char → Bool) (render : List Char → Except (List Char) (List Nat))
       (hasFile : Bool) (filename fileContent : List Char) (sgParam : Option (List Char))
       (u nm : List Char) (st : List (List Char × List Nat)),
      (generate_png_from_upload fs render hasFile filename fileContent sgParam u).outputFile =
        some nm →
      ∃ b, (generate_png_from_upload fs render hasFile filename fileContent sgParam u).written =
          some (nm, b) ∧
        generate_png_from_dot_file fs render (charsOfStr "uploads/" ++ u ++ charsOfStr ".dot")
          fileContent (sgParam.getD sgDefault) saDefault = Except.ok b ∧
        download_file (writeOutput
          (generate_png_from_upload fs render hasFile filename fileContent sgParam u).written st)
          nm = Except.ok b ∧
        serve_image (writeOutput
          (generate_png_from_upload fs render hasFile filename fileContent sgParam u).written st)
          nm = Except.ok b) ∧
    (∀ (fs : List Char → Bool) (readFile : List Char → List Char)
       (render : List Char → Except (List Char) (List Nat))
       (jsonFilename : Option (List Char)) (sgParam saParam : Option (List Char))
       (u nm : List Char) (st : List (List Char × List Nat)),
      (generate_png_from_existing fs readFile render jsonFilename sgParam saParam u).outputFile =
        some nm →
      ∃ b, (generate_png_from_existing fs readFile render jsonFilename sgParam saParam u).written =
          some (nm, b) ∧
        download_file (writeOutput
          (generate_png_from_existing fs readFile render jsonFilename sgParam saParam u).written st)
          nm = Except.ok b ∧
        serve_image (writeOutput
          (generate_png_from_existing fs readFile render jsonFilename sgParam saParam u).written st)
          nm = Except.ok b) := by
  constructor
  · intro fs render hasFile filename fileContent sgParam u nm st hout
    cases hasFile
    · simp [generate_png_from_upload] at hout
    · by_cases he : (filename == []) = true
      · simp [generate_png_from_upload, he] at hout
      · by_cases hal : allowed_file filename = true
        · cases hres : generate_png_from_dot_file fs render
              (charsOfStr "uploads/" ++ u ++ charsOfStr ".dot") fileContent
              (sgParam.getD sgDefault) saDefault with
          | error e =>
              rw [List.append_assoc] at hres
              simp [generate_png_from_upload, he, hal, hres] at hout
          | ok png =>
              have hres2 := hres
              rw [List.append_assoc] at hres2
              have hnm : u ++ charsOfStr ".png" = nm := by
                simpa [generate_png_from_upload, he, hal, hres2] using hout
              refine ⟨png, ?_, ?_, ?_, ?_⟩
              · simp [generate_png_from_upload, he, hal, hres2, ← hnm]
              · rfl
              · simp [generate_png_from_upload, he, hal, hres2, download_file,
                  serve_image, writeOutput, lookupStore, ← hnm]
              · simp [generate_png_from_upload, he, hal, hres2, download_file,
                  serve_image, writeOutput, lookupStore, ← hnm]
        · simp [generate_png_from_upload, he, hal] at hout
  · intro fs readFile render jsonFilename sgParam saParam u nm st hout
    cases jsonFilename with
    | none => simp [generate_png_from_existing] at hout
    | some f =>
        by_cases hfs : fs f = true
        · by_cases hal : allowed_file f = true
          · cases hres : generate_png_from_dot_file fs render f (readFile f)
                (sgParam.getD sgDefault) (saParam.getD saDefault) with
            | error e =>
                simp [generate_png_from_existing, hfs, hal, hres] at hout
            | ok png =>
                have hnm : stem f ++ charsOfStr "_" ++ u ++ charsOfStr ".png" = nm := by
                  simpa [generate_png_from_existing, hfs, hal, hres] using hout
                refine ⟨png, ?_, ?_, ?_⟩ <;>
                  simp [generate_png_from_existing, hfs, hal, hres, download_file,
                    serve_image, writeOutput, lookupStore, ← hnm]
          · simp [generate_png_from_existing, hfs, hal] at hout
        · simp [generate_png_from_existing, hfs] at hout

/-- Witness for claim C6 at a concrete successful render. -/
theorem claim_C6_roundtrip_w :
    download_file (writeOutput (generate_png_from_upload (fun _ => true)
        (fun _ => Except.ok [1, 2, 3]) true (charsOfStr "g.dot") (charsOfStr "digraph G")
        none (charsOfStr "id3")).written [])
      (charsOfStr "id3" ++ charsOfStr ".png") = Except.ok [1, 2, 3] ∧
    serve_image (writeOutput (generate_png_from_upload (fun _ => true)
        (fun _ => Except.ok [1, 2, 3]) true (charsOfStr "g.dot") (charsOfStr "digraph G")
        none (charsOfStr "id3")).written [])
      (charsOfStr "id3" ++ charsOfStr ".png") = Except.ok [1, 2, 3] := by
  obtain ⟨b, hw, _, hd, hsv⟩ := claim_C6_roundtrip.1 (fun _ => true)
    (fun _ => Except.ok [1, 2, 3]) true (charsOfStr "g.dot") (charsOfStr "digraph G")
    none (charsOfStr "id3") (charsOfStr "id3" ++ charsOfStr ".png") [] rfl
  have hb : b = [1, 2, 3] := by
    have h2 : some ((charsOfStr "id3" ++ charsOfStr ".png" : List Char), b) =
        some ((charsOfStr "id3" ++ charsOfStr ".png" : List Char), ([1, 2, 3] : List Nat)) := by
      rw [← hw]; rfl
    simpa using h2
  rw [hb] at hd hsv
  exact ⟨hd, hsv⟩
